import Mathlib

/-!
Verification development for the purchase-order transaction counter
(`transaction_utils.py`).  The aggregation engine is shallowly embedded:
a dataset is the first sheet of the uploaded spreadsheet after the
`pd.to_numeric(..., errors='coerce')` pass, so a row's `jumlah` cell is
`some a` when it held a parseable numeric value and `none` when it was
null or unparsable (those rows are removed by `dropna`).  Amounts are
modelled as integers.  Pandas errors are modelled by an explicit error
type: `ValueError` messages that list the available columns carry
`some columns`, those that do not carry `none`, and a raw pandas
`KeyError` on a missing column is its own constructor.
-/

namespace CountPo

/-- One spreadsheet row after numeric coercion of `jumlah`.
`po_status_approval` and `po_code` are `none` when the cell is null. -/
structure Row where
  vendor_name : String
  jumlah : Option Int
  po_status_approval : Option String
  po_code : Option String
deriving DecidableEq, Repr

/-- The first sheet: its column names and its rows. -/
structure Dataset where
  columns : List String
  rows : List Row
deriving DecidableEq, Repr

/-- Errors raised by the aggregation functions.  `validationError` is the
`ValueError` for a missing required column; `available = some cols` when the
message lists the available columns, `none` when it only names the missing
column.  `emptyResult` is the `ValueError` for a vendor filter that matched
nothing.  `keyError` is an untyped pandas `KeyError` from indexing a missing
column. -/
inductive AggError where
  | validationError (missing : String) (available : Option (List String))
  | emptyResult (vendor : String)
  | keyError (col : String)
deriving DecidableEq, Repr

/-- Result tuple of `count_transactions`:
`(total_transactions, total_amount, *counts)`. -/
structure TxResult where
  total_transactions : Nat
  total_amount : Int
  bin_counts : List Nat
deriving DecidableEq, Repr

/-- Result tuple of `count_unique_po_by_range`: `(total_unique_po, *counts)`. -/
structure PoResult where
  total_unique_po : Nat
  bin_counts : List Nat
deriving DecidableEq, Repr

/-- One row of the `get_po_breakdown` table
`[PO Code, Jumlah Transaksi, Total Nilai, Rentang]`. -/
structure BreakdownRow where
  po_code : String
  jumlah_transaksi : Nat
  total_nilai : Int
  rentang : String
deriving DecidableEq, Repr

/-- Python truthiness of the optional `vendor` argument: `if vendor:` is
false for `None` and for the empty string. -/
def vendorGiven : Option String → Bool
  | none => false
  | some s => !s.isEmpty

/-- The numeric `jumlah` of a row; only used after the `dropna` step, where
the cell is known to be `some`. -/
def amt (r : Row) : Int := r.jumlah.getD 0

/-- `df.dropna(subset=['jumlah'])` after coercion. -/
def dropnaJumlah (rs : List Row) : List Row :=
  rs.filter (fun r => r.jumlah.isSome)

/-- `df.dropna(subset=['jumlah', 'po_code'])` after coercion. -/
def dropnaJumlahPoCode (rs : List Row) : List Row :=
  rs.filter (fun r => r.jumlah.isSome && r.po_code.isSome)

/-- `if status_column in df.columns: df = df[df[status_column] == 'Approved']`.
A null status cell never equals `'Approved'`. -/
def statusFilter (cols : List String) (rs : List Row) : List Row :=
  if cols.contains "po_status_approval" then
    rs.filter (fun r => r.po_status_approval == some "Approved")
  else rs

/-- `if vendor: df = df[df[vendor_column] == vendor]`. -/
def vendorFilter (vendor : Option String) (rs : List Row) : List Row :=
  if vendorGiven vendor then
    rs.filter (fun r => r.vendor_name == vendor.getD "")
  else rs

/-- The row set reaching the counting phase of `count_transactions` (and the
return value of `get_transaction_dataframe`): coerce, drop null `jumlah`,
keep `Approved`, apply the vendor filter. -/
def tx_filtered (d : Dataset) (vendor : Option String) : List Row :=
  vendorFilter vendor (statusFilter d.columns (dropnaJumlah d.rows))

/-- The row set reaching the grouping phase of `count_unique_po_by_range`
and `get_po_breakdown`: same pipeline but `dropna` also removes rows with a
null `po_code`. -/
def po_filtered (d : Dataset) (vendor : Option String) : List Row :=
  vendorFilter vendor (statusFilter d.columns (dropnaJumlahPoCode d.rows))

/-- The `ranges` list literal of `count_transactions`. -/
def ranges_tx : List (Int × Int) :=
  [(0, 100000), (100001, 500000), (500001, 1000000),
   (1000001, 5000000), (5000001, 10000000), (10000001, 50000000)]

/-- The `ranges` list literal of `count_unique_po_by_range`. -/
def ranges_po : List (Int × Int) :=
  [(0, 100000), (100001, 500000), (500001, 1000000),
   (1000001, 5000000), (5000001, 10000000), (10000001, 50000000)]

/-- `(df[col] >= min_val) & (df[col] <= max_val)` for one `(min_val, max_val)`
pair. -/
def binRangePred (p : Int × Int) (a : Int) : Bool :=
  decide (p.1 ≤ a ∧ a ≤ p.2)

/-- `df[col] > 50000000`. -/
def above50M (a : Int) : Bool := decide (50000000 < a)

/-- The seven counts of `count_transactions`: one per `(min, max)` range,
then the above-50M count appended. -/
def binCountsTx (amounts : List Int) : List Nat :=
  ranges_tx.map (fun p => (amounts.filter (binRangePred p)).length)
    ++ [(amounts.filter above50M).length]

/-- The seven counts of `count_unique_po_by_range`, over the per-PO sums. -/
def binCountsPo (amounts : List Int) : List Nat :=
  ranges_po.map (fun p => (amounts.filter (binRangePred p)).length)
    ++ [(amounts.filter above50M).length]

/-- `count_transactions(file, vendor)`.  Column validation, the cleaning
pipeline, the empty-vendor check, then the counting. -/
def count_transactions (d : Dataset) (vendor : Option String) :
    Except AggError TxResult :=
  if !(d.columns.contains "jumlah") then
    Except.error (AggError.validationError "jumlah" (some d.columns))
  else if !(d.columns.contains "vendor_name") then
    Except.error (AggError.validationError "vendor_name" (some d.columns))
  else
    if vendorGiven vendor && (tx_filtered d vendor).isEmpty then
      Except.error (AggError.emptyResult (vendor.getD ""))
    else
      Except.ok
        { total_transactions := (tx_filtered d vendor).length
          total_amount := ((tx_filtered d vendor).map amt).sum
          bin_counts := binCountsTx ((tx_filtered d vendor).map amt) }

/-- The distinct `po_code` keys of the filtered rows in first-seen order. -/
def poKeysFirstSeen (rs : List Row) : List String :=
  rs.foldl
    (fun acc r =>
      let k := r.po_code.getD ""
      if k ∈ acc then acc else acc ++ [k]) []

/-- Lexicographic comparison of character lists by code point. -/
def charListLe : List Char → List Char → Bool
  | [], _ => true
  | _ :: _, [] => false
  | c :: cs, d :: ds =>
    if c.toNat < d.toNat then true
    else if d.toNat < c.toNat then false
    else charListLe cs ds

/-- Lexicographic string comparison by code point, as pandas sorts keys. -/
def strLe (a b : String) : Bool := charListLe a.data b.data

/-- `df.groupby(po_code_column)` iterates the groups in ascending key order
(pandas `groupby` has `sort=True`). -/
def sortedPoKeys (rs : List Row) : List String :=
  List.insertionSort (fun a b => strLe a b = true) (poKeysFirstSeen rs)

/-- The rows of one `po_code` group. -/
def po_group (rs : List Row) (k : String) : List Row :=
  rs.filter (fun r => r.po_code == some k)

/-- The per-group `jumlah` sums, in groupby iteration order:
`df.groupby(po_code_column)[total_column].sum()`. -/
def poGroupSums (rs : List Row) : List Int :=
  (sortedPoKeys rs).map (fun k => ((po_group rs k).map amt).sum)

/-- `count_unique_po_by_range(file, vendor)`.  Validates `jumlah` and
`po_code` (messages without the available-column list), cleans, filters,
groups by `po_code`, and bins the group sums.  A truthy vendor with no
`vendor_name` column is a raw `KeyError`; there is no empty-result check. -/
def count_unique_po_by_range (d : Dataset) (vendor : Option String) :
    Except AggError PoResult :=
  if !(d.columns.contains "jumlah") then
    Except.error (AggError.validationError "jumlah" none)
  else if !(d.columns.contains "po_code") then
    Except.error (AggError.validationError "po_code" none)
  else if vendorGiven vendor && !(d.columns.contains "vendor_name") then
    Except.error (AggError.keyError "vendor_name")
  else
    Except.ok
      { total_unique_po := (poGroupSums (po_filtered d vendor)).length
        bin_counts := binCountsPo (poGroupSums (po_filtered d vendor)) }

/-- The `get_range` helper of `get_po_breakdown`. -/
def get_range (value : Int) : String :=
  if value ≤ 100000 then "0 - 100 Ribu"
  else if value ≤ 500000 then "100 Ribu - 500 Ribu"
  else if value ≤ 1000000 then "500 Ribu - 1 Juta"
  else if value ≤ 5000000 then "1 Juta - 5 Juta"
  else if value ≤ 10000000 then "5 Juta - 10 Juta"
  else if value ≤ 50000000 then "10 Juta - 50 Juta"
  else "Di atas 50 Juta"

/-- The breakdown table before the final sort: one row per group in groupby
iteration order, with count, sum and `get_range` label. -/
def breakdown_unsorted (rs : List Row) : List BreakdownRow :=
  (sortedPoKeys rs).map (fun k =>
    { po_code := k
      jumlah_transaksi := (po_group rs k).length
      total_nilai := ((po_group rs k).map amt).sum
      rentang := get_range (((po_group rs k).map amt).sum) })

/-- `po_summary.sort_values('Total Nilai', ascending=False)`, modelled as an
insertion sort on the descending-by-value order.  numpy's default sort kind
is introsort, which runs plain (stable) insertion sort on arrays of fewer
than 16 elements, so this model is bit-exact for breakdown tables of fewer
than 16 groups.  For larger tables introsort is not stable and the relative
order of rows with equal `Total Nilai` is unspecified; only the descending
arrangement of the values — which every sort kind produces — is faithful
there, and theorems below assert the tie order only under the
fewer-than-16-rows bound. -/
def breakdown_rows (rs : List Row) : List BreakdownRow :=
  List.insertionSort (fun a b => b.total_nilai ≤ a.total_nilai)
    (breakdown_unsorted rs)

/-- `get_po_breakdown(file, vendor)`: same validation and pipeline as
`count_unique_po_by_range`, then the sorted breakdown table. -/
def get_po_breakdown (d : Dataset) (vendor : Option String) :
    Except AggError (List BreakdownRow) :=
  if !(d.columns.contains "jumlah") then
    Except.error (AggError.validationError "jumlah" none)
  else if !(d.columns.contains "po_code") then
    Except.error (AggError.validationError "po_code" none)
  else if vendorGiven vendor && !(d.columns.contains "vendor_name") then
    Except.error (AggError.keyError "vendor_name")
  else
    Except.ok (breakdown_rows (po_filtered d vendor))

/-- `get_transaction_dataframe(file, vendor)`: no column validation and no
empty-result check.  Indexing `df['jumlah']` on a dataset without that
column raises a raw `KeyError`, as does the vendor filter when
`vendor_name` is absent. -/
def get_transaction_dataframe (d : Dataset) (vendor : Option String) :
    Except AggError (List Row) :=
  if !(d.columns.contains "jumlah") then
    Except.error (AggError.keyError "jumlah")
  else if vendorGiven vendor && !(d.columns.contains "vendor_name") then
    Except.error (AggError.keyError "vendor_name")
  else
    Except.ok (tx_filtered d vendor)

/-- The `ranges_labels` literal of `get_range_statistics`. -/
def ranges_labels_tx : List String :=
  ["0 - 100 Ribu", "100 Ribu - 500 Ribu", "500 Ribu - 1 Juta",
   "1 Juta - 5 Juta", "5 Juta - 10 Juta", "10 Juta - 50 Juta",
   "Di atas 50 Juta"]

/-- The `ranges_labels` literal of `get_unique_po_statistics`. -/
def ranges_labels_po : List String :=
  ["0 - 100 Ribu", "100 Ribu - 500 Ribu", "500 Ribu - 1 Juta",
   "1 Juta - 5 Juta", "5 Juta - 10 Juta", "10 Juta - 50 Juta",
   "Di atas 50 Juta"]

/-- The canonical bin index of a range label. -/
def label_index (s : String) : Nat :=
  List.findIdx (fun t => t == s) ranges_labels_tx

/-- The seven range predicates of `count_transactions`, in bin order. -/
def countPredsTx : List (Int → Bool) :=
  ranges_tx.map (fun p => binRangePred p) ++ [above50M]

/-- The seven range predicates of `count_unique_po_by_range`, in bin order. -/
def countPredsPo : List (Int → Bool) :=
  ranges_po.map (fun p => binRangePred p) ++ [above50M]

/-- Index of the first predicate an amount satisfies, if any. -/
def firstMatchIdx (preds : List (Int → Bool)) (a : Int) : Option Nat :=
  match preds with
  | [] => none
  | p :: ps => if p a then some 0 else (firstMatchIdx ps a).map (· + 1)

/-- The bin the transaction-level counting predicates assign to an amount
(`none` when the amount is counted by no bin). -/
def binIndexCountTx (a : Int) : Option Nat := firstMatchIdx countPredsTx a

/-- The bin the PO-level counting predicates assign to an amount. -/
def binIndexCountPo (a : Int) : Option Nat := firstMatchIdx countPredsPo a

/-- `.round(2)`: two-decimal rounding of a rational percentage. -/
def round2 (q : ℚ) : ℚ := (round (q * 100) : ℤ) / 100

/-- The `Persentase` column of `get_range_statistics`: the division is not
guarded, so with `total = 0` pandas computes `0/0 = NaN` (modelled `none`). -/
def tx_percentages (total : Nat) (counts : List Nat) : List (Option ℚ) :=
  counts.map (fun (c : Nat) =>
    if total = 0 then none
    else some (round2 ((c : ℚ) / (total : ℚ) * 100)))

/-- The `Persentase` column of `get_unique_po_statistics`: guarded by
`if total > 0 else 0`, so a zero total assigns the scalar 0 to the column. -/
def po_percentages (total : Nat) (counts : List Nat) : List ℚ :=
  if 0 < total then
    counts.map (fun (c : Nat) => round2 ((c : ℚ) / (total : ℚ) * 100))
  else counts.map (fun _ => (0 : ℚ))

/-- The `Persentase` column of the `get_range_statistics` table. -/
def get_range_statistics_persentase (d : Dataset) (vendor : Option String) :
    Except AggError (List (Option ℚ)) :=
  (count_transactions d vendor).map
    (fun res => tx_percentages res.total_transactions res.bin_counts)

/-- The `Persentase` column of the `get_unique_po_statistics` table. -/
def get_unique_po_statistics_persentase (d : Dataset) (vendor : Option String) :
    Except AggError (List ℚ) :=
  (count_unique_po_by_range d vendor).map
    (fun res => po_percentages res.total_unique_po res.bin_counts)

/-- A dataset whose single approved-by-default row has a negative amount. -/
def dsNegAmount : Dataset :=
  { columns := ["jumlah", "vendor_name"]
    rows := [{ vendor_name := "V", jumlah := some (-1),
               po_status_approval := none, po_code := none }] }

/-- A dataset with one row for vendor `V` and PO `P1`. -/
def dsOneVendor : Dataset :=
  { columns := ["jumlah", "vendor_name", "po_code"]
    rows := [{ vendor_name := "V", jumlah := some 100,
               po_status_approval := none, po_code := some "P1" }] }

/-- A dataset lacking the `jumlah` column. -/
def dsMissingJumlah : Dataset :=
  { columns := ["vendor_name", "po_code"], rows := [] }

/-- Two PO groups with equal summed value, `B` appearing before `A` in
input order. -/
def dsTieOrder : Dataset :=
  { columns := ["jumlah", "vendor_name", "po_code"]
    rows := [{ vendor_name := "V", jumlah := some 100,
               po_status_approval := none, po_code := some "B" },
             { vendor_name := "V", jumlah := some 100,
               po_status_approval := none, po_code := some "A" }] }

/-- A dataset with the required columns and no rows at all. -/
def dsEmpty : Dataset :=
  { columns := ["jumlah", "vendor_name", "po_code"], rows := [] }

/-- A dataset with one row each for vendors `V` and `W`. -/
def dsTwoVendors : Dataset :=
  { columns := ["jumlah", "vendor_name"]
    rows := [{ vendor_name := "V", jumlah := some 100,
               po_status_approval := none, po_code := none },
             { vendor_name := "W", jumlah := some 200,
               po_status_approval := none, po_code := none }] }

/-- A dataset lacking the `vendor_name` column. -/
def dsNoVendorCol : Dataset := { columns := ["jumlah", "po_code"], rows := [] }

/-- The order in which `get_po_breakdown` lists its rows: strictly greater
`total_nilai` first, ties in strictly ascending `po_code` order. -/
def bdR (x y : BreakdownRow) : Prop :=
  y.total_nilai < x.total_nilai ∨
    (y.total_nilai = x.total_nilai ∧
      strLe x.po_code y.po_code = true ∧ x.po_code ≠ y.po_code)

/-- C3: the classifier maps amount 100000 to bin 0, 100001 to bin 1,
50000000 to bin 5 and 50000001 to bin 6 — in the transaction-level
predicates, the PO-level predicates and the `get_range` label alike. -/
theorem boundary_amounts_bins :
    binIndexCountTx 100000 = some 0 ∧ binIndexCountTx 100001 = some 1 ∧
    binIndexCountTx 50000000 = some 5 ∧ binIndexCountTx 50000001 = some 6 ∧
    binIndexCountPo 100000 = some 0 ∧ binIndexCountPo 100001 = some 1 ∧
    binIndexCountPo 50000000 = some 5 ∧ binIndexCountPo 50000001 = some 6 ∧
    label_index (get_range 100000) = 0 ∧ label_index (get_range 100001) = 1 ∧
    label_index (get_range 50000000) = 5 ∧
    label_index (get_range 50000001) = 6 := by
  decide

/-- C1 counterexample: a surviving negative amount is counted by no bin, so
the seven bin counts of `count_transactions` sum to 0 while
`total_transactions = 1`. -/
theorem partition_fails_on_negative :
    count_transactions dsNegAmount none =
      Except.ok { total_transactions := 1, total_amount := -1,
                  bin_counts := [0, 0, 0, 0, 0, 0, 0] } ∧
    ([0, 0, 0, 0, 0, 0, 0] : List Nat).sum ≠ 1 := by
  exact ⟨rfl, by decide⟩

/-- C2 counterexample: at amount −1 the counting predicates assign no bin,
while `get_range` assigns the bin-0 label, so the classifications differ. -/
theorem classifiers_differ_on_negative :
    binIndexCountTx (-1) ≠ some (label_index (get_range (-1))) ∧
    get_range (-1) = "0 - 100 Ribu" := by
  constructor
  · decide
  · decide

/-- C4 counterexample: on an empty dataset `count_transactions` succeeds with
total 0, and the unguarded division of `get_range_statistics` makes every
percentage `0/0 = NaN` (modelled `none`) rather than 0. -/
theorem tx_percentages_nan_on_zero_total :
    get_range_statistics_persentase dsEmpty none =
      Except.ok (List.replicate 7 (none : Option ℚ)) ∧
    (none : Option ℚ) ≠ some 0 := by
  exact ⟨rfl, by decide⟩

/-- C5 counterexample: a vendor filter matching zero rows makes
`count_transactions` raise, but `count_unique_po_by_range` and
`get_po_breakdown` return zero-count/empty results instead of raising. -/
theorem po_functions_no_empty_vendor_error :
    count_unique_po_by_range dsOneVendor (some "Z") =
      Except.ok { total_unique_po := 0, bin_counts := [0, 0, 0, 0, 0, 0, 0] } ∧
    get_po_breakdown dsOneVendor (some "Z") = Except.ok [] ∧
    count_transactions dsOneVendor (some "Z") =
      Except.error (AggError.emptyResult "Z") := by
  exact ⟨rfl, rfl, rfl⟩

/-- C6 counterexample: the PO aggregator's missing-`jumlah` error does not
carry the available-column list, unlike `count_transactions`'s. -/
theorem po_validation_error_lacks_columns :
    count_unique_po_by_range dsMissingJumlah none =
      Except.error (AggError.validationError "jumlah" none) ∧
    AggError.validationError "jumlah" none ≠
      AggError.validationError "jumlah" (some ["vendor_name", "po_code"]) := by
  exact ⟨rfl, by decide⟩

/-- C7 counterexample: two groups with equal totals are listed in ascending
`po_code` order (`A` before `B`), not in first-seen input order (`B` was
seen first). -/
theorem breakdown_ties_not_input_order :
    get_po_breakdown dsTieOrder none =
      Except.ok
        [{ po_code := "A", jumlah_transaksi := 1, total_nilai := 100,
           rentang := "0 - 100 Ribu" },
         { po_code := "B", jumlah_transaksi := 1, total_nilai := 100,
           rentang := "0 - 100 Ribu" }] ∧
    poKeysFirstSeen (po_filtered dsTieOrder none) = ["B", "A"] := by
  exact ⟨rfl, by decide⟩

/-- C8 counterexample: a negative amount is not placed in the above-50M
catch-all bin: the counting predicates match it nowhere at all, and
`get_range` labels it with bin 0, not the catch-all label. -/
theorem negative_not_in_catchall :
    binIndexCountTx (-1) = none ∧ binIndexCountPo (-1) = none ∧
    get_range (-1) = "0 - 100 Ribu" ∧
    "0 - 100 Ribu" ≠ "Di atas 50 Juta" := by
  refine ⟨by decide, by decide, by decide, by decide⟩

theorem counts_map_sum_cons (preds : List (Int → Bool)) (a : Int) (l : List Int) :
    (preds.map (fun p => ((a :: l).filter p).length)).sum =
      preds.countP (fun p => p a) +
        (preds.map (fun p => (l.filter p).length)).sum := by
  induction preds with
  | nil => simp
  | cons p ps ih =>
    simp only [List.map_cons, List.sum_cons, List.countP_cons]
    rw [ih, List.filter_cons]
    clear ih
    generalize List.countP (fun q => q a) ps = n
    generalize (List.map (fun q => (List.filter q l).length) ps).sum = m
    generalize List.filter p l = fl
    by_cases hp : p a = true
    · rw [if_pos hp, if_pos hp]
      simp only [List.length_cons]
      omega
    · rw [if_neg hp, if_neg hp]
      omega

theorem binCountsTx_eq_preds (l : List Int) :
    binCountsTx l = countPredsTx.map (fun p => (l.filter p).length) := by
  simp [binCountsTx, countPredsTx, List.map_append, List.map_map]

theorem binCountsPo_eq_tx (l : List Int) : binCountsPo l = binCountsTx l := rfl

theorem countPredsTx_one (a : Int) (ha : 0 ≤ a) :
    countPredsTx.countP (fun p => p a) = 1 := by
  simp only [countPredsTx, ranges_tx, List.map_cons, List.map_nil,
    List.cons_append, List.nil_append, List.countP_cons, List.countP_nil,
    binRangePred, above50M, decide_eq_true_eq]
  split_ifs <;> omega

theorem binCountsTx_sum (l : List Int) (h : ∀ a ∈ l, 0 ≤ a) :
    (binCountsTx l).sum = l.length := by
  induction l with
  | nil => rfl
  | cons a l ih =>
    rw [binCountsTx_eq_preds, counts_map_sum_cons, ← binCountsTx_eq_preds,
      countPredsTx_one a (h a (List.mem_cons_self a l)),
      ih (fun b hb => h b (List.mem_cons_of_mem a hb))]
    simp [Nat.add_comm]

theorem mem_of_vendorFilter {v : Option String} {rs : List Row} {r : Row}
    (h : r ∈ vendorFilter v rs) : r ∈ rs := by
  unfold vendorFilter at h
  split at h
  · exact List.mem_of_mem_filter h
  · exact h

theorem mem_of_statusFilter {cols : List String} {rs : List Row} {r : Row}
    (h : r ∈ statusFilter cols rs) : r ∈ rs := by
  unfold statusFilter at h
  split at h
  · exact List.mem_of_mem_filter h
  · exact h

theorem mem_of_tx_filtered {d : Dataset} {v : Option String} {r : Row}
    (h : r ∈ tx_filtered d v) : r ∈ d.rows :=
  List.mem_of_mem_filter (mem_of_statusFilter (mem_of_vendorFilter h))

theorem mem_of_po_filtered {d : Dataset} {v : Option String} {r : Row}
    (h : r ∈ po_filtered d v) : r ∈ d.rows :=
  List.mem_of_mem_filter (mem_of_statusFilter (mem_of_vendorFilter h))

theorem amt_nonneg {d : Dataset}
    (hnn : ∀ r ∈ d.rows, ∀ a : Int, r.jumlah = some a → 0 ≤ a)
    {r : Row} (hr : r ∈ d.rows) : 0 ≤ amt r := by
  unfold amt
  cases hj : r.jumlah with
  | none => simp
  | some a => simpa using hnn r hr a hj

theorem poGroupSums_nonneg {d : Dataset} {v : Option String}
    (hnn : ∀ r ∈ d.rows, ∀ a : Int, r.jumlah = some a → 0 ≤ a) :
    ∀ s ∈ poGroupSums (po_filtered d v), 0 ≤ s := by
  intro s hs
  obtain ⟨k, _, rfl⟩ := List.mem_map.mp hs
  refine List.sum_nonneg ?_
  intro a ha
  obtain ⟨r, hr, rfl⟩ := List.mem_map.mp ha
  exact amt_nonneg hnn (mem_of_po_filtered (List.mem_of_mem_filter hr))

/-- C1 (amended): when every surviving amount is non-negative, the seven bin
counts of `count_transactions` sum to `total_transactions` and those of
`count_unique_po_by_range` sum to `total_unique_po`.  (A negative amount is
counted by no bin, so the unconditional claim fails.) -/
theorem bin_counts_partition (d : Dataset) (vendor : Option String)
    (hnn : ∀ r ∈ d.rows, ∀ a : Int, r.jumlah = some a → 0 ≤ a) :
    (count_transactions d vendor).map (fun res => res.bin_counts.sum) =
      (count_transactions d vendor).map (fun res => res.total_transactions) ∧
    (count_unique_po_by_range d vendor).map (fun res => res.bin_counts.sum) =
      (count_unique_po_by_range d vendor).map
        (fun res => res.total_unique_po) := by
  constructor
  · unfold count_transactions
    split
    · rfl
    · split
      · rfl
      · split
        · rfl
        · simp only [Except.map]
          congr 1
          rw [binCountsTx_sum]
          · simp
          · intro a ha
            obtain ⟨r, hr, rfl⟩ := List.mem_map.mp ha
            exact amt_nonneg hnn (mem_of_tx_filtered hr)
  · unfold count_unique_po_by_range
    split
    · rfl
    · split
      · rfl
      · split
        · rfl
        · simp only [Except.map]
          congr 1
          rw [binCountsPo_eq_tx, binCountsTx_sum]
          exact poGroupSums_nonneg hnn

/-- Witness for C1 at a concrete dataset. -/
theorem bin_counts_partition_witness :
    (count_transactions dsOneVendor none).map (fun res => res.bin_counts.sum) =
      (count_transactions dsOneVendor none).map
        (fun res => res.total_transactions) ∧
    (count_unique_po_by_range dsOneVendor none).map
        (fun res => res.bin_counts.sum) =
      (count_unique_po_by_range dsOneVendor none).map
        (fun res => res.total_unique_po) :=
  bin_counts_partition dsOneVendor none (by decide)

/-- C2 (amended): for every non-negative amount, the bin assigned by the
counting predicates equals the bin of the `get_range` label, and the
transaction-level and PO-level predicate lists agree on every amount.
(At a negative amount the counting predicates assign no bin while
`get_range` assigns bin 0, so the unrestricted claim fails.) -/
theorem classifier_agreement (a : Int) :
    (0 ≤ a → binIndexCountTx a = some (label_index (get_range a))) ∧
    binIndexCountPo a = binIndexCountTx a := by
  refine ⟨fun ha => ?_, rfl⟩
  simp only [binIndexCountTx, countPredsTx, ranges_tx, List.map_cons,
    List.map_nil, List.cons_append, List.nil_append, firstMatchIdx,
    binRangePred, above50M, decide_eq_true_eq, get_range]
  by_cases h1 : a ≤ 100000
  · rw [if_pos ⟨ha, h1⟩, if_pos h1]; rfl
  · rw [if_neg (by omega), if_neg h1]
    by_cases h2 : a ≤ 500000
    · rw [if_pos ⟨by omega, h2⟩, if_pos h2]; rfl
    · rw [if_neg (by omega), if_neg h2]
      by_cases h3 : a ≤ 1000000
      · rw [if_pos ⟨by omega, h3⟩, if_pos h3]; rfl
      · rw [if_neg (by omega), if_neg h3]
        by_cases h4 : a ≤ 5000000
        · rw [if_pos ⟨by omega, h4⟩, if_pos h4]; rfl
        · rw [if_neg (by omega), if_neg h4]
          by_cases h5 : a ≤ 10000000
          · rw [if_pos ⟨by omega, h5⟩, if_pos h5]; rfl
          · rw [if_neg (by omega), if_neg h5]
            by_cases h6 : a ≤ 50000000
            · rw [if_pos ⟨by omega, h6⟩, if_pos h6]; rfl
            · rw [if_neg (by omega), if_neg h6,
                if_pos (by omega : (50000000 : Int) < a)]
              rfl

/-- Witness for C2 at a concrete amount. -/
theorem classifier_agreement_witness :
    binIndexCountTx 123456 = some (label_index (get_range 123456)) ∧
    binIndexCountPo 123456 = binIndexCountTx 123456 :=
  ⟨(classifier_agreement 123456).1 (by decide), (classifier_agreement 123456).2⟩

/-- C8 (amended): a negative amount matches none of the counting predicates
— not even the above-50M catch-all — so it is counted in no bin, while
`get_range` assigns it the bin-0 label rather than the catch-all label. -/
theorem negative_amount_classification (a : Int) (h : a < 0) :
    binIndexCountTx a = none ∧ binIndexCountPo a = none ∧
    get_range a = "0 - 100 Ribu" := by
  have htx : binIndexCountTx a = none := by
    simp only [binIndexCountTx, countPredsTx, ranges_tx, List.map_cons,
      List.map_nil, List.cons_append, List.nil_append, firstMatchIdx,
      binRangePred, above50M, decide_eq_true_eq]
    rw [if_neg (by omega), if_neg (by omega), if_neg (by omega),
      if_neg (by omega), if_neg (by omega), if_neg (by omega),
      if_neg (by omega)]
    rfl
  refine ⟨htx, ?_, ?_⟩
  · rw [show binIndexCountPo a = binIndexCountTx a from rfl, htx]
  · simp only [get_range]
    rw [if_pos (by omega : a ≤ 100000)]

/-- Witness for C8 at a concrete amount. -/
theorem negative_amount_classification_witness :
    binIndexCountTx (-5) = none ∧ binIndexCountPo (-5) = none ∧
    get_range (-5) = "0 - 100 Ribu" :=
  negative_amount_classification (-5) (by decide)

theorem tx_ok_inv {d : Dataset} {v : Option String} {res : TxResult}
    (h : count_transactions d v = Except.ok res) :
    res = { total_transactions := (tx_filtered d v).length
            total_amount := ((tx_filtered d v).map amt).sum
            bin_counts := binCountsTx ((tx_filtered d v).map amt) } := by
  unfold count_transactions at h
  split at h
  · exact absurd h (by simp)
  · split at h
    · exact absurd h (by simp)
    · split at h
      · exact absurd h (by simp)
      · injection h with h
        exact h.symm

theorem po_ok_inv {d : Dataset} {v : Option String} {res : PoResult}
    (h : count_unique_po_by_range d v = Except.ok res) :
    res = { total_unique_po := (poGroupSums (po_filtered d v)).length
            bin_counts := binCountsPo (poGroupSums (po_filtered d v)) } := by
  unfold count_unique_po_by_range at h
  split at h
  · exact absurd h (by simp)
  · split at h
    · exact absurd h (by simp)
    · split at h
      · exact absurd h (by simp)
      · injection h with h
        exact h.symm

/-- C9: filtering by a vendor never increases `total_transactions` relative
to no vendor filter. -/
theorem vendor_filter_monotone (d : Dataset) (v : String) (r r' : TxResult)
    (h : count_transactions d (some v) = Except.ok r)
    (h' : count_transactions d none = Except.ok r') :
    r.total_transactions ≤ r'.total_transactions := by
  rw [tx_ok_inv h, tx_ok_inv h']
  show (tx_filtered d (some v)).length ≤ (tx_filtered d none).length
  unfold tx_filtered
  have hnone : vendorFilter none (statusFilter d.columns (dropnaJumlah d.rows))
      = statusFilter d.columns (dropnaJumlah d.rows) := rfl
  rw [hnone]
  unfold vendorFilter
  split
  · exact List.length_filter_le _ _
  · exact le_refl _

/-- Witness for C9 at a concrete dataset and vendor. -/
theorem vendor_filter_monotone_witness :
    ({ total_transactions := 1, total_amount := 100,
       bin_counts := [1, 0, 0, 0, 0, 0, 0] } : TxResult).total_transactions ≤
    ({ total_transactions := 2, total_amount := 300,
       bin_counts := [2, 0, 0, 0, 0, 0, 0] } : TxResult).total_transactions :=
  vendor_filter_monotone dsTwoVendors "V" _ _ rfl rfl

theorem binCountsTx_length (l : List Int) : (binCountsTx l).length = 7 := by
  simp [binCountsTx, ranges_tx]

/-- C4 (amended): `get_unique_po_statistics` assigns percentage 0 to every
bin when the PO total is 0 and `count / total * 100` rounded to two decimals
otherwise; `get_range_statistics` has no zero guard, so when the transaction
total is 0 its percentages are the `NaN` of `0/0` (modelled `none`), not 0. -/
theorem percentage_zero_guard (d : Dataset) (vendor : Option String) :
    (∀ res : PoResult, count_unique_po_by_range d vendor = Except.ok res →
      (res.total_unique_po = 0 →
        get_unique_po_statistics_persentase d vendor =
          Except.ok (List.replicate 7 (0 : ℚ))) ∧
      (0 < res.total_unique_po →
        get_unique_po_statistics_persentase d vendor =
          Except.ok (res.bin_counts.map (fun (c : Nat) =>
            round2 ((c : ℚ) / (res.total_unique_po : ℚ) * 100))))) ∧
    (∀ res : TxResult, count_transactions d vendor = Except.ok res →
      (res.total_transactions = 0 →
        get_range_statistics_persentase d vendor =
          Except.ok (List.replicate 7 (none : Option ℚ))) ∧
      (0 < res.total_transactions →
        get_range_statistics_persentase d vendor =
          Except.ok (res.bin_counts.map (fun (c : Nat) =>
            some (round2 ((c : ℚ) / (res.total_transactions : ℚ) * 100)))))) := by
  constructor
  · intro res hok
    have hlen : res.bin_counts.length = 7 := by
      rw [po_ok_inv hok]
      rw [binCountsPo_eq_tx, binCountsTx_length]
    have hmap : get_unique_po_statistics_persentase d vendor =
        Except.ok (po_percentages res.total_unique_po res.bin_counts) := by
      unfold get_unique_po_statistics_persentase
      rw [hok]
      rfl
    constructor
    · intro h0
      rw [hmap]
      unfold po_percentages
      rw [h0, if_neg (lt_irrefl 0)]
      congr 1
      rw [← hlen]
      exact List.map_const' res.bin_counts 0
    · intro hpos
      rw [hmap]
      unfold po_percentages
      rw [if_pos hpos]
  · intro res hok
    have hlen : res.bin_counts.length = 7 := by
      rw [tx_ok_inv hok]
      exact binCountsTx_length _
    have hmap : get_range_statistics_persentase d vendor =
        Except.ok (tx_percentages res.total_transactions res.bin_counts) := by
      unfold get_range_statistics_persentase
      rw [hok]
      rfl
    constructor
    · intro h0
      rw [hmap]
      unfold tx_percentages
      rw [h0]
      have hfun : (fun (c : Nat) => if (0 : Nat) = 0 then (none : Option ℚ)
          else some (round2 ((c : ℚ) / ((0 : Nat) : ℚ) * 100))) =
          fun _ => (none : Option ℚ) := by
        funext c
        rw [if_pos rfl]
      rw [hfun, ← hlen]
      exact congrArg Except.ok (List.map_const' res.bin_counts none)
    · intro hpos
      rw [hmap]
      unfold tx_percentages
      refine congrArg Except.ok (List.map_congr_left ?_)
      intro c _
      rw [if_neg (Nat.pos_iff_ne_zero.mp hpos)]

/-- Witness for C4 at concrete datasets. -/
theorem percentage_zero_guard_witness :
    get_unique_po_statistics_persentase dsEmpty none =
      Except.ok (List.replicate 7 (0 : ℚ)) ∧
    get_range_statistics_persentase dsEmpty none =
      Except.ok (List.replicate 7 (none : Option ℚ)) :=
  ⟨((percentage_zero_guard dsEmpty none).1 _ rfl).1 rfl,
   ((percentage_zero_guard dsEmpty none).2 _ rfl).1 rfl⟩

theorem dropnaPoCode_sublist (rs : List Row) :
    List.Sublist (dropnaJumlahPoCode rs) (dropnaJumlah rs) := by
  induction rs with
  | nil => exact List.Sublist.refl _
  | cons r rs ih =>
    unfold dropnaJumlahPoCode dropnaJumlah at *
    rw [List.filter_cons, List.filter_cons]
    cases hj : r.jumlah.isSome <;> cases hp : r.po_code.isSome <;>
      simp only [hj, hp, Bool.true_and, Bool.false_and, Bool.and_true,
        Bool.and_false, Bool.false_eq_true, if_true, if_false]
    · exact ih
    · exact ih
    · exact ih.cons r
    · exact ih.cons₂ r

theorem statusFilter_sublist (cols : List String) {l₁ l₂ : List Row}
    (h : List.Sublist l₁ l₂) :
    List.Sublist (statusFilter cols l₁) (statusFilter cols l₂) := by
  unfold statusFilter
  split
  · exact h.filter _
  · exact h

theorem vendorFilter_sublist (v : Option String) {l₁ l₂ : List Row}
    (h : List.Sublist l₁ l₂) :
    List.Sublist (vendorFilter v l₁) (vendorFilter v l₂) := by
  unfold vendorFilter
  split
  · exact h.filter _
  · exact h

theorem po_filtered_sublist (d : Dataset) (v : Option String) :
    List.Sublist (po_filtered d v) (tx_filtered d v) :=
  vendorFilter_sublist _ (statusFilter_sublist _ (dropnaPoCode_sublist _))

/-- C5 (amended): a truthy vendor filter that yields zero rows makes
`count_transactions` raise `EmptyResultError`, but `count_unique_po_by_range`
returns a zero-count result and `get_po_breakdown` an empty table instead of
raising. -/
theorem empty_vendor_behaviour (d : Dataset) (v : String)
    (hne : v.isEmpty = false)
    (hj : "jumlah" ∈ d.columns)
    (hvn : "vendor_name" ∈ d.columns)
    (hpc : "po_code" ∈ d.columns)
    (hemp : tx_filtered d (some v) = []) :
    count_transactions d (some v) = Except.error (AggError.emptyResult v) ∧
    count_unique_po_by_range d (some v) =
      Except.ok { total_unique_po := 0,
                  bin_counts := [0, 0, 0, 0, 0, 0, 0] } ∧
    get_po_breakdown d (some v) = Except.ok [] := by
  have hpo : po_filtered d (some v) = [] := by
    have hs := po_filtered_sublist d (some v)
    rw [hemp] at hs
    exact List.sublist_nil.mp hs
  refine ⟨?_, ?_, ?_⟩
  · unfold count_transactions
    rw [hemp]
    simp [hj, hvn, vendorGiven, hne]
  · unfold count_unique_po_by_range
    rw [hpo]
    simp [hj, hpc, hvn]
    exact ⟨rfl, rfl⟩
  · unfold get_po_breakdown
    rw [hpo]
    simp [hj, hpc, hvn]
    rfl

/-- Witness for C5 at a concrete dataset and vendor. -/
theorem empty_vendor_behaviour_witness :
    count_transactions dsOneVendor (some "Z") =
      Except.error (AggError.emptyResult "Z") ∧
    count_unique_po_by_range dsOneVendor (some "Z") =
      Except.ok { total_unique_po := 0,
                  bin_counts := [0, 0, 0, 0, 0, 0, 0] } ∧
    get_po_breakdown dsOneVendor (some "Z") = Except.ok [] :=
  empty_vendor_behaviour dsOneVendor "Z" rfl (by decide) (by decide)
    (by decide) rfl

/-- C6 (amended): `count_transactions`'s `ValidationError`s name the missing
column and list the available columns, but the PO aggregator's and the
breakdown producer's only name the missing column, without the
available-column list. -/
theorem validation_error_detail (d : Dataset) (vendor : Option String) :
    ("jumlah" ∉ d.columns →
      count_transactions d vendor =
        Except.error (AggError.validationError "jumlah" (some d.columns)) ∧
      count_unique_po_by_range d vendor =
        Except.error (AggError.validationError "jumlah" none) ∧
      get_po_breakdown d vendor =
        Except.error (AggError.validationError "jumlah" none)) ∧
    ("jumlah" ∈ d.columns →
      "vendor_name" ∉ d.columns →
      count_transactions d vendor =
        Except.error (AggError.validationError "vendor_name" (some d.columns))) ∧
    ("jumlah" ∈ d.columns →
      "po_code" ∉ d.columns →
      count_unique_po_by_range d vendor =
        Except.error (AggError.validationError "po_code" none) ∧
      get_po_breakdown d vendor =
        Except.error (AggError.validationError "po_code" none)) := by
  refine ⟨fun h => ?_, fun hj hv => ?_, fun hj hp => ?_⟩ <;>
    simp [count_transactions, count_unique_po_by_range, get_po_breakdown, *]

/-- Witness for C6 at concrete datasets. -/
theorem validation_error_detail_witness :
    (count_transactions dsMissingJumlah none =
      Except.error
        (AggError.validationError "jumlah" (some dsMissingJumlah.columns)) ∧
     count_unique_po_by_range dsMissingJumlah none =
      Except.error (AggError.validationError "jumlah" none) ∧
     get_po_breakdown dsMissingJumlah none =
      Except.error (AggError.validationError "jumlah" none)) ∧
    count_transactions dsNoVendorCol none =
      Except.error
        (AggError.validationError "vendor_name" (some dsNoVendorCol.columns)) ∧
    count_unique_po_by_range dsTwoVendors none =
      Except.error (AggError.validationError "po_code" none) ∧
    get_po_breakdown dsTwoVendors none =
      Except.error (AggError.validationError "po_code" none) :=
  ⟨(validation_error_detail dsMissingJumlah none).1 (by decide),
   (validation_error_detail dsNoVendorCol none).2.1 (by decide) (by decide),
   (validation_error_detail dsTwoVendors none).2.2 (by decide) (by decide)⟩

/-- C10: `get_transaction_dataframe` performs no column validation and no
empty-result check: a missing `jumlah` column raises a raw `KeyError` where
`count_transactions` raises a `ValidationError`, and a vendor filter
matching zero rows returns an empty row-set where `count_transactions`
raises `EmptyResultError`. -/
theorem raw_export_no_checks (d : Dataset) (vendor : Option String) :
    ("jumlah" ∉ d.columns →
      get_transaction_dataframe d vendor =
        Except.error (AggError.keyError "jumlah") ∧
      count_transactions d vendor =
        Except.error (AggError.validationError "jumlah" (some d.columns))) ∧
    ("jumlah" ∈ d.columns →
      "vendor_name" ∈ d.columns →
      vendorGiven vendor = true →
      tx_filtered d vendor = [] →
      get_transaction_dataframe d vendor = Except.ok [] ∧
      count_transactions d vendor =
        Except.error (AggError.emptyResult (vendor.getD ""))) := by
  refine ⟨fun h => ?_, fun hj hv hg hemp => ?_⟩
  · simp [get_transaction_dataframe, count_transactions, h]
  · constructor
    · unfold get_transaction_dataframe
      rw [hemp]
      simp [hj, hv]
    · unfold count_transactions
      rw [hemp]
      simp [hj, hv, hg]

/-- Witness for C10 at concrete datasets. -/
theorem raw_export_no_checks_witness :
    (get_transaction_dataframe dsMissingJumlah none =
      Except.error (AggError.keyError "jumlah") ∧
     count_transactions dsMissingJumlah none =
      Except.error
        (AggError.validationError "jumlah" (some dsMissingJumlah.columns))) ∧
    get_transaction_dataframe dsOneVendor (some "Z") = Except.ok [] ∧
    count_transactions dsOneVendor (some "Z") =
      Except.error (AggError.emptyResult "Z") :=
  ⟨(raw_export_no_checks dsMissingJumlah none).1 (by decide),
   (raw_export_no_checks dsOneVendor (some "Z")).2 (by decide) (by decide)
     rfl rfl⟩

theorem charListLe_total : ∀ l₁ l₂ : List Char,
    charListLe l₁ l₂ = true ∨ charListLe l₂ l₁ = true := by
  intro l₁
  induction l₁ with
  | nil => intro l₂; left; rfl
  | cons a as ih =>
    intro l₂
    cases l₂ with
    | nil => right; rfl
    | cons b bs =>
      unfold charListLe
      by_cases h1 : a.toNat < b.toNat
      · left; rw [if_pos h1]
      · by_cases h2 : b.toNat < a.toNat
        · right; rw [if_pos h2]
        · rw [if_neg h1, if_neg h2, if_neg h2, if_neg h1]
          exact ih bs

theorem charListLe_trans : ∀ l₁ l₂ l₃ : List Char,
    charListLe l₁ l₂ = true → charListLe l₂ l₃ = true →
    charListLe l₁ l₃ = true := by
  intro l₁
  induction l₁ with
  | nil => intro l₂ l₃ _ _; rfl
  | cons a as ih =>
    intro l₂ l₃ h12 h23
    cases l₂ with
    | nil => simp [charListLe] at h12
    | cons b bs =>
      cases l₃ with
      | nil => simp [charListLe] at h23
      | cons c cs =>
        unfold charListLe at h12 h23 ⊢
        by_cases hac : a.toNat < c.toNat
        · rw [if_pos hac]
        · by_cases hca : c.toNat < a.toNat
          · exfalso
            by_cases hab : a.toNat < b.toNat
            · have hcb : c.toNat < b.toNat := by omega
              rw [if_neg (by omega), if_pos hcb] at h23
              exact absurd h23 (by simp)
            · by_cases hba : b.toNat < a.toNat
              · rw [if_neg hab, if_pos hba] at h12
                exact absurd h12 (by simp)
              · have hcb : c.toNat < b.toNat := by omega
                rw [if_neg (by omega), if_pos hcb] at h23
                exact absurd h23 (by simp)
          · rw [if_neg hac, if_neg hca]
            by_cases hab : a.toNat < b.toNat
            · have hcb : c.toNat < b.toNat := by omega
              rw [if_neg (by omega), if_pos hcb] at h23
              exact absurd h23 (by simp)
            · by_cases hba : b.toNat < a.toNat
              · rw [if_neg hab, if_pos hba] at h12
                exact absurd h12 (by simp)
              · rw [if_neg hab, if_neg hba] at h12
                rw [if_neg (by omega), if_neg (by omega)] at h23
                exact ih bs cs h12 h23

theorem poKeysFold_nodup (rs : List Row) :
    ∀ acc : List String, acc.Nodup →
      (rs.foldl (fun acc r =>
        let k := r.po_code.getD ""
        if k ∈ acc then acc else acc ++ [k]) acc).Nodup := by
  induction rs with
  | nil => intro acc h; exact h
  | cons r rs ih =>
    intro acc h
    rw [List.foldl_cons]
    refine ih _ ?_
    by_cases hk : (r.po_code.getD "") ∈ acc
    · simpa [hk] using h
    · simp only [hk, if_neg, ite_false]
      simp [List.nodup_append, h, hk]

theorem poKeysFirstSeen_nodup (rs : List Row) : (poKeysFirstSeen rs).Nodup :=
  poKeysFold_nodup rs [] List.nodup_nil

theorem sortedPoKeys_pairwise (rs : List Row) :
    (sortedPoKeys rs).Pairwise (fun a b => strLe a b = true ∧ a ≠ b) := by
  haveI : IsTotal String (fun a b => strLe a b = true) :=
    ⟨fun a b => charListLe_total a.data b.data⟩
  haveI : IsTrans String (fun a b => strLe a b = true) :=
    ⟨fun a b c => charListLe_trans a.data b.data c.data⟩
  have hsorted : (sortedPoKeys rs).Pairwise (fun a b => strLe a b = true) :=
    List.sorted_insertionSort _ _
  have hnodup : (sortedPoKeys rs).Nodup :=
    ((List.perm_insertionSort _ _).nodup_iff).mpr (poKeysFirstSeen_nodup rs)
  exact hsorted.and hnodup

theorem orderedInsert_pairwise_bdR (x : BreakdownRow) (l : List BreakdownRow)
    (hl : l.Pairwise bdR)
    (hx : ∀ y ∈ l, strLe x.po_code y.po_code = true ∧
      x.po_code ≠ y.po_code) :
    (List.orderedInsert (fun a b => b.total_nilai ≤ a.total_nilai)
        x l).Pairwise bdR := by
  induction l with
  | nil => simp [List.orderedInsert]
  | cons b t ih =>
    simp only [List.orderedInsert]
    by_cases h : b.total_nilai ≤ x.total_nilai
    · rw [if_pos h]
      refine List.Pairwise.cons ?_ hl
      intro z hz
      rcases List.mem_cons.mp hz with rfl | hzt
      · rcases lt_or_eq_of_le h with hlt | heq
        · exact Or.inl hlt
        · exact Or.inr ⟨heq, (hx z (List.mem_cons_self z t)).1,
            (hx z (List.mem_cons_self z t)).2⟩
      · have hbz := (List.pairwise_cons.mp hl).1 z hzt
        have hzb : z.total_nilai ≤ b.total_nilai := by
          rcases hbz with h' | ⟨h', _⟩
          · exact le_of_lt h'
          · exact le_of_eq h'
        have hxz := hx z (List.mem_cons_of_mem b hzt)
        rcases lt_or_eq_of_le (le_trans hzb h) with hlt | heq
        · exact Or.inl hlt
        · exact Or.inr ⟨heq, hxz.1, hxz.2⟩
    · rw [if_neg h]
      refine List.Pairwise.cons ?_
        (ih (List.pairwise_cons.mp hl).2
          (fun y hy => hx y (List.mem_cons_of_mem b hy)))
      intro z hz
      rcases (List.mem_orderedInsert _).mp hz with rfl | hzt
      · exact Or.inl (not_le.mp h)
      · exact (List.pairwise_cons.mp hl).1 z hzt

theorem insertionSort_pairwise_bdR (l : List BreakdownRow)
    (hc : l.Pairwise (fun x y => strLe x.po_code y.po_code = true ∧
      x.po_code ≠ y.po_code)) :
    (List.insertionSort (fun a b => b.total_nilai ≤ a.total_nilai)
        l).Pairwise bdR := by
  induction l with
  | nil => simp [List.insertionSort]
  | cons x t ih =>
    simp only [List.insertionSort]
    refine orderedInsert_pairwise_bdR x _ (ih (List.pairwise_cons.mp hc).2) ?_
    intro y hy
    exact (List.pairwise_cons.mp hc).1 y
      ((List.perm_insertionSort _ _).mem_iff.mp hy)

theorem breakdown_unsorted_pairwise (rs : List Row) :
    (breakdown_unsorted rs).Pairwise
      (fun x y => strLe x.po_code y.po_code = true ∧
        x.po_code ≠ y.po_code) := by
  unfold breakdown_unsorted
  rw [List.pairwise_map]
  exact sortedPoKeys_pairwise rs

/-- C7 (amended): the breakdown table is ordered by descending `total_nilai`
at every size, and ties do not keep first-seen input order: for tables of
fewer than 16 rows — where numpy's sort is exactly a stable insertion sort,
so the model is bit-exact — rows of equal total appear in strictly ascending
`po_code` order, the groupby iteration order, which sorts keys.  For 16 or
more rows the sort kind (quicksort) is unstable and the tie order is
unspecified. -/
theorem breakdown_table_order (d : Dataset) (v : Option String)
    (bd : List BreakdownRow) (h : get_po_breakdown d v = Except.ok bd) :
    bd.Pairwise (fun x y => y.total_nilai ≤ x.total_nilai) ∧
    (bd.length < 16 → bd.Pairwise bdR) := by
  have hbd : bd = breakdown_rows (po_filtered d v) := by
    unfold get_po_breakdown at h
    split at h
    · exact absurd h (by simp)
    · split at h
      · exact absurd h (by simp)
      · split at h
        · exact absurd h (by simp)
        · injection h with h
          exact h.symm
  rw [hbd]
  constructor
  · unfold breakdown_rows
    haveI : IsTotal BreakdownRow (fun a b => b.total_nilai ≤ a.total_nilai) :=
      ⟨fun a b => le_total b.total_nilai a.total_nilai⟩
    haveI : IsTrans BreakdownRow (fun a b => b.total_nilai ≤ a.total_nilai) :=
      ⟨fun _ _ _ hab hbc => le_trans hbc hab⟩
    exact List.sorted_insertionSort _ _
  · intro _
    unfold breakdown_rows
    exact insertionSort_pairwise_bdR _ (breakdown_unsorted_pairwise _)

/-- Witness for C7 at a concrete two-row dataset (within the exact,
fewer-than-16-rows regime). -/
theorem breakdown_table_order_witness :
    List.Pairwise
      (fun x y : BreakdownRow => y.total_nilai ≤ x.total_nilai)
      [{ po_code := "A", jumlah_transaksi := 1, total_nilai := 100,
         rentang := "0 - 100 Ribu" },
       { po_code := "B", jumlah_transaksi := 1, total_nilai := 100,
         rentang := "0 - 100 Ribu" }] ∧
    List.Pairwise bdR
      [{ po_code := "A", jumlah_transaksi := 1, total_nilai := 100,
         rentang := "0 - 100 Ribu" },
       { po_code := "B", jumlah_transaksi := 1, total_nilai := 100,
         rentang := "0 - 100 Ribu" }] :=
  ⟨(breakdown_table_order dsTieOrder none _ rfl).1,
   (breakdown_table_order dsTieOrder none _ rfl).2 (by decide)⟩

end CountPo
